import Mathlib

/-!
Verification of the password-hash comparison core (`hash/hash_comparator.go`):
the scheme-detection dispatcher, the per-scheme format classifiers, the
Argon2 / PBKDF2 / Scrypt decoders, and the per-scheme comparators.

Encoded hashes and passwords are Go byte strings; all inputs of interest are
ASCII, so they are embedded as `List Char`. Raw byte sequences produced by
base64 decoding are `List Nat`. The external key-derivation primitives
(argon2, pbkdf2, the scrypt mixing function, the bcrypt compare, the
pwscheme SSHA validators) are black boxes, passed in as a `Primitives`
record; everything the repository itself computes is embedded executably.
-/

/-- Go byte strings (ASCII in all relevant inputs). -/
abbrev Str := List Char

/-- The distinguishable error values the comparison core can surface.
`unknownAlgorithm` is `ErrUnknownHashAlgorithm`, `mismatched` is
`ErrMismatchedHashAndPassword`, `invalidHash` is `ErrInvalidHash`,
`incompatibleVersion` is `ErrIncompatibleVersion`; `scanError` stands for an
error returned by `fmt.Sscanf`, `base64Error` for a base64
`CorruptInputError`, `bcryptLibError` for an error returned by
`bcrypt.CompareHashAndPassword`, `scryptLibError` for an error returned by
`scrypt.Key`, `passwordTooLong` for the bcrypt length-policy violation, and
`unsupportedAlgorithm` for the PBKDF2 digest-selection failure. -/
inductive CmpError where
  | unknownAlgorithm
  | mismatched
  | invalidHash
  | incompatibleVersion
  | scanError
  | base64Error
  | passwordTooLong
  | unsupportedAlgorithm
  | bcryptLibError
  | scryptLibError
deriving DecidableEq, Repr

/-- Failure reasons of the external pwscheme SSHA validators: a validator can
reject because the encoded hash is malformed or because the password does not
match. The comparators in the source never inspect which. -/
inductive ValidatorErr where
  | malformed
  | mismatch
deriving DecidableEq, Repr

/-- The five digest names PBKDF2 supports (modelled from the spec; the
selection function lives outside the reviewed source file). -/
inductive PRF where
  | sha1
  | sha224
  | sha256
  | sha384
  | sha512
deriving DecidableEq, Repr

/-- `config.Argon2`, as far as `decodeArgon2idHash` populates it.
Modelled from the spec: the record type is declared outside the reviewed
source file; the spec gives memory/iterations/parallelism/saltLength/keyLength
as unsigned integers. -/
structure Argon2 where
  Memory : Nat
  Iterations : Nat
  Parallelism : Nat
  SaltLength : Nat
  KeyLength : Nat
deriving DecidableEq, Repr

/-- The PBKDF2 parameter record `Pbkdf2`, as far as `decodePbkdf2Hash`
populates it. Modelled from the spec: the record type is declared outside the
reviewed source file. -/
structure Pbkdf2 where
  Algorithm : Str
  Iterations : Nat
  SaltLength : Nat
  KeyLength : Nat
deriving DecidableEq, Repr

/-- The Scrypt parameter record `Scrypt` (field names, including the
`Parrellization` spelling, as in the source), as far as `decodeScryptHash`
populates it. Modelled from the spec: the record type is declared outside the
reviewed source file. -/
structure Scrypt where
  Cost : Nat
  Block : Nat
  Parrellization : Nat
  SaltLength : Nat
  KeyLength : Nat
deriving DecidableEq, Repr

/-- The external primitives the core invokes as black boxes:
`argon2id`/`argon2i` are `argon2.IDKey`/`argon2.Key`
(password, salt, time, memory, threads, keyLen); `pbkdf2Key` is `pbkdf2.Key`
(password, salt, iterations, keyLen, prf); `scryptMix` is the scrypt digest
computation performed after `scrypt.Key`'s parameter validation;
`bcryptCompare` is `bcrypt.CompareHashAndPassword` (hash, password), error
meaning any failure of that library call; `sshaValidate` and friends are the
pwscheme `ssha.Validate` family (password, encoded hash). -/
structure Primitives where
  argon2id : Str → List Nat → Nat → Nat → Nat → Nat → List Nat
  argon2i : Str → List Nat → Nat → Nat → Nat → Nat → List Nat
  pbkdf2Key : Str → List Nat → Nat → Nat → PRF → List Nat
  scryptMix : Str → List Nat → Nat → Nat → Nat → Nat → List Nat
  bcryptCompare : Str → Str → Except Unit Unit
  sshaValidate : Str → Str → Except ValidatorErr Unit
  ssha256Validate : Str → Str → Except ValidatorErr Unit
  ssha512Validate : Str → Str → Except ValidatorErr Unit

/-- A fixed instantiation of the black-box primitives, used to evaluate the
development on concrete inputs. -/
def trivialPrims : Primitives where
  argon2id := fun _ _ _ _ _ _ => []
  argon2i := fun _ _ _ _ _ _ => []
  pbkdf2Key := fun _ _ _ _ _ => []
  scryptMix := fun _ _ _ _ _ _ => []
  bcryptCompare := fun _ _ => Except.ok ()
  sshaValidate := fun _ _ => Except.ok ()
  ssha256Validate := fun _ _ => Except.ok ()
  ssha512Validate := fun _ _ => Except.ok ()

/-! ## String splitting (`strings.Split(s, "$")`, `strings.SplitN(s, "-", 2)`) -/

/-- Helper of `splitDollar`: Go `strings.Split` on the one-byte separator
`$`; `acc` holds the current field reversed. -/
def splitDollarAux (acc : Str) : Str → List Str
  | [] => [acc.reverse]
  | c :: rest =>
    if c == '$' then acc.reverse :: splitDollarAux [] rest
    else splitDollarAux (c :: acc) rest

/-- Go `strings.Split(s, "$")`: always at least one field; empty input gives
one empty field, a leading separator a leading empty field. -/
def splitDollar (s : Str) : List Str := splitDollarAux [] s

/-- Go `strings.SplitN(s, "-", 2)` when it yields two parts: the segments
before and after the first `-`; `none` when `s` has no `-` (in which case
`SplitN` yields a single part). -/
def splitFirstDash : Str → Option (Str × Str)
  | [] => none
  | c :: rest =>
    if c == '-' then some ([], rest)
    else (splitFirstDash rest).map (fun p => (c :: p.1, p.2))

/-! ## `fmt.Sscanf` fragments

The decoders use `fmt.Sscanf` with the formats `v=%d`, `m=%d,t=%d,p=%d`,
`i=%d,l=%d` and `ln=%d,r=%d,p=%d`. Literal format characters must match the
input exactly; `%d` first discards leading blanks, then reads an optionally
signed run of decimal digits (sign only for signed targets); a missing digit
or an out-of-range value is a scan error; input left over after the format is
exhausted is not an error for `Sscanf`. Numeric targets are modelled from the
spec as unsigned 32-bit fields (the version as a signed 64-bit `int`). -/

/-- Discard the blanks `%d` skips before a number. -/
def skipSpaceTab : Str → Str
  | [] => []
  | c :: rest => if c == ' ' || c == '\t' then skipSpaceTab rest else c :: rest

/-- Split a leading run of decimal digits off the input. -/
def takeDigits : Str → (List Char × Str)
  | [] => ([], [])
  | c :: rest =>
    if c.isDigit then
      let p := takeDigits rest
      (c :: p.1, p.2)
    else ([], c :: rest)

/-- Value of a run of decimal digits. -/
def digitsToNat (ds : List Char) : Nat :=
  ds.foldl (fun acc c => acc * 10 + (c.toNat - 48)) 0

/-- Scan `%d` into an unsigned 32-bit target: skip blanks, read one or more
digits, reject values outside `uint32`. -/
def scanUint32 (s : Str) : Option (Nat × Str) :=
  let s1 := skipSpaceTab s
  match takeDigits s1 with
  | ([], _) => none
  | (ds, rest) =>
    let n := digitsToNat ds
    if n < 2 ^ 32 then some (n, rest) else none

/-- Scan `%d` into a signed 64-bit `int` target: skip blanks, optional sign,
one or more digits, reject values outside `int64`. -/
def scanInt64 (s : Str) : Option (Int × Str) :=
  let s1 := skipSpaceTab s
  match s1 with
  | '-' :: s2 =>
    match takeDigits s2 with
    | ([], _) => none
    | (ds, rest) =>
      let n := digitsToNat ds
      if n ≤ 2 ^ 63 then some (-(n : Int), rest) else none
  | '+' :: s2 =>
    match takeDigits s2 with
    | ([], _) => none
    | (ds, rest) =>
      let n := digitsToNat ds
      if n < 2 ^ 63 then some ((n : Int), rest) else none
  | _ =>
    match takeDigits s1 with
    | ([], _) => none
    | (ds, rest) =>
      let n := digitsToNat ds
      if n < 2 ^ 63 then some ((n : Int), rest) else none

/-- Match one literal format character against the input. -/
def expectChar (c : Char) : Str → Option Str
  | [] => none
  | d :: rest => if d == c then some rest else none

/-- `fmt.Sscanf(s, "v=%d", &version)` with `version : int`. -/
def scanV (s : Str) : Option Int := do
  let s1 ← expectChar 'v' s
  let s2 ← expectChar '=' s1
  let p ← scanInt64 s2
  some p.1

/-- `fmt.Sscanf(s, "m=%d,t=%d,p=%d", &Memory, &Iterations, &Parallelism)`. -/
def scanMTP (s : Str) : Option (Nat × Nat × Nat) := do
  let s1 ← expectChar 'm' s
  let s2 ← expectChar '=' s1
  let pm ← scanUint32 s2
  let s3 ← expectChar ',' pm.2
  let s4 ← expectChar 't' s3
  let s5 ← expectChar '=' s4
  let pt ← scanUint32 s5
  let s6 ← expectChar ',' pt.2
  let s7 ← expectChar 'p' s6
  let s8 ← expectChar '=' s7
  let pp ← scanUint32 s8
  some (pm.1, pt.1, pp.1)

/-- `fmt.Sscanf(s, "i=%d,l=%d", &Iterations, &KeyLength)`. -/
def scanIL (s : Str) : Option (Nat × Nat) := do
  let s1 ← expectChar 'i' s
  let s2 ← expectChar '=' s1
  let pi ← scanUint32 s2
  let s3 ← expectChar ',' pi.2
  let s4 ← expectChar 'l' s3
  let s5 ← expectChar '=' s4
  let pl ← scanUint32 s5
  some (pi.1, pl.1)

/-- `fmt.Sscanf(s, "ln=%d,r=%d,p=%d", &Cost, &Block, &Parrellization)`. -/
def scanLnRP (s : Str) : Option (Nat × Nat × Nat) := do
  let s1 ← expectChar 'l' s
  let s2 ← expectChar 'n' s1
  let s3 ← expectChar '=' s2
  let pn ← scanUint32 s3
  let s4 ← expectChar ',' pn.2
  let s5 ← expectChar 'r' s4
  let s6 ← expectChar '=' s5
  let pr ← scanUint32 s6
  let s7 ← expectChar ',' pr.2
  let s8 ← expectChar 'p' s7
  let s9 ← expectChar '=' s8
  let pp ← scanUint32 s9
  some (pn.1, pr.1, pp.1)

/-! ## Base64 (`encoding/base64`, standard alphabet, `Strict()` decoders)

`RawStdEncoding.Strict()` expects no padding; `StdEncoding.Strict()` requires
`=` padding to a multiple of four. Both reject characters outside the
alphabet, require the unused trailing bits of a final partial quantum to be
zero (the strict check), and ignore `\r` and `\n`. -/

/-- Index of a character in the standard base64 alphabet. -/
def b64Idx (c : Char) : Option Nat :=
  if 65 ≤ c.toNat ∧ c.toNat ≤ 90 then some (c.toNat - 65)
  else if 97 ≤ c.toNat ∧ c.toNat ≤ 122 then some (c.toNat - 97 + 26)
  else if 48 ≤ c.toNat ∧ c.toNat ≤ 57 then some (c.toNat - 48 + 52)
  else if c == '+' then some 62
  else if c == '/' then some 63
  else none

/-- Decode a final two-character quantum into one byte (strict: the four
unused bits must be zero). -/
def b64Dec2 (c1 c2 : Char) : Option (List Nat) := do
  let i1 ← b64Idx c1
  let i2 ← b64Idx c2
  if i2 % 16 = 0 then some [i1 * 4 + i2 / 16] else none

/-- Decode a final three-character quantum into two bytes (strict: the two
unused bits must be zero). -/
def b64Dec3 (c1 c2 c3 : Char) : Option (List Nat) := do
  let i1 ← b64Idx c1
  let i2 ← b64Idx c2
  let i3 ← b64Idx c3
  if i3 % 4 = 0 then some [i1 * 4 + i2 / 16, i2 % 16 * 16 + i3 / 4] else none

/-- Decode a full four-character quantum into three bytes. -/
def b64Dec4 (c1 c2 c3 c4 : Char) : Option (List Nat) := do
  let i1 ← b64Idx c1
  let i2 ← b64Idx c2
  let i3 ← b64Idx c3
  let i4 ← b64Idx c4
  some [i1 * 4 + i2 / 16, i2 % 16 * 16 + i3 / 4, i3 % 4 * 64 + i4]

/-- Unpadded (raw) standard base64 decoding of newline-free input: full
quanta, with a final quantum of two or three characters allowed and a single
leftover character an error. -/
def b64DecodeRaw : Str → Option (List Nat)
  | [] => some []
  | [c1, c2] => b64Dec2 c1 c2
  | [c1, c2, c3] => b64Dec3 c1 c2 c3
  | c1 :: c2 :: c3 :: c4 :: rest => do
    let b ← b64Dec4 c1 c2 c3 c4
    let r ← b64DecodeRaw rest
    some (b ++ r)
  | _ => none

/-- Padded standard base64 decoding of newline-free input: the length must be
a multiple of four, `=` may appear only as final-quantum padding. -/
def b64DecodeStd : Str → Option (List Nat)
  | [] => some []
  | [c1, c2, '=', '='] => b64Dec2 c1 c2
  | [c1, c2, c3, '='] => b64Dec3 c1 c2 c3
  | c1 :: c2 :: c3 :: c4 :: rest => do
    let b ← b64Dec4 c1 c2 c3 c4
    let r ← b64DecodeStd rest
    some (b ++ r)
  | _ => none

/-- The Go base64 decoders ignore carriage returns and newlines. -/
def dropNewlines (s : Str) : Str :=
  s.filter (fun c => !(c == '\n' || c == '\r'))

/-- `base64.RawStdEncoding.Strict().DecodeString`. -/
def rawStdB64 (s : Str) : Option (List Nat) := b64DecodeRaw (dropNewlines s)

/-- `base64.StdEncoding.Strict().DecodeString`. -/
def stdB64 (s : Str) : Option (List Nat) := b64DecodeStd (dropNewlines s)

/-! ## Format classifiers

The source tests precompiled anchored patterns; each is a pure structural
test on the head of the byte string. -/

/-- Prefix test used by the classifiers; the pattern is the first argument. -/
def startsWith : Str → Str → Bool
  | [], _ => true
  | _, [] => false
  | p :: ps, c :: cs => (c == p) && startsWith ps cs

/-- `IsBcryptHash`: the anchored pattern `^\$2[abzy]?\$` — `$2` followed by an
optional scheme letter from `a`, `b`, `z`, `y`, followed by `$`. -/
def IsBcryptHash (h : Str) : Bool :=
  match h with
  | c1 :: c2 :: rest =>
    if (c1 == '$') && (c2 == '2') then
      match rest with
      | [] => false
      | c3 :: rest2 =>
        if c3 == '$' then true
        else
          match rest2 with
          | [] => false
          | c4 :: _ =>
            ((c3 == 'a') || (c3 == 'b') || (c3 == 'z') || (c3 == 'y')) && (c4 == '$')
    else false
  | _ => false

/-- `IsArgon2idHash`: the anchored pattern `^\$argon2id\$`. -/
def IsArgon2idHash (h : Str) : Bool :=
  startsWith (("$argon2id$").data) h

/-- `IsArgon2iHash`: the anchored pattern `^\$argon2i\$`. -/
def IsArgon2iHash (h : Str) : Bool :=
  startsWith (("$argon2i$").data) h

/-- One to three decimal digits immediately followed by `$`. -/
def digitsThenDollar (s : Str) : Bool :=
  match s with
  | d1 :: '$' :: _ => d1.isDigit
  | d1 :: d2 :: '$' :: _ => d1.isDigit && d2.isDigit
  | d1 :: d2 :: d3 :: '$' :: _ => d1.isDigit && d2.isDigit && d3.isDigit
  | _ => false

/-- `IsPbkdf2Hash`: the anchored pattern `^\$pbkdf2-sha[0-9]{1,3}\$`. -/
def IsPbkdf2Hash (h : Str) : Bool :=
  match h with
  | '$' :: 'p' :: 'b' :: 'k' :: 'd' :: 'f' :: '2' :: '-' :: 's' :: 'h' :: 'a' :: rest =>
    digitsThenDollar rest
  | _ => false

/-- `IsScryptHash`: the anchored pattern `^\$scrypt\$`. -/
def IsScryptHash (h : Str) : Bool :=
  startsWith (("$scrypt$").data) h

/-- `IsSSHAHash`: the anchored pattern `^{SSHA}.*`. -/
def IsSSHAHash (h : Str) : Bool :=
  startsWith (("{SSHA}").data) h

/-- `IsSSHA256Hash`: the anchored pattern `^{SSHA256}.*`. -/
def IsSSHA256Hash (h : Str) : Bool :=
  startsWith (("{SSHA256}").data) h

/-- `IsSSHA512Hash`: the anchored pattern `^{SSHA512}.*`. -/
def IsSSHA512Hash (h : Str) : Bool :=
  startsWith (("{SSHA512}").data) h

/-- `IsValidHashFormat`: the disjunction of the eight classifiers, in the
order the source tests them there. -/
def IsValidHashFormat (h : Str) : Bool :=
  if IsArgon2iHash h || IsArgon2idHash h || IsBcryptHash h || IsPbkdf2Hash h ||
      IsScryptHash h || IsSSHAHash h || IsSSHA256Hash h || IsSSHA512Hash h then
    true
  else
    false

/-! ## Decoders -/

/-- `decodeArgon2idHash`: split on `$` into exactly six fields; scan the
version field and require it to equal `argon2.Version` (19); scan the
`m=,t=,p=` parameter field; decode salt and digest with raw strict base64,
recording their lengths into the params record. Fields 0 and 1 (the leading
empty field and the scheme identifier) are never inspected. -/
def decodeArgon2idHash (s : Str) : Except CmpError (Argon2 × List Nat × List Nat) :=
  let parts := splitDollar s
  if parts.length = 6 then
    match scanV (parts.getD 2 []) with
    | none => Except.error CmpError.scanError
    | some version =>
      if version ≠ 19 then Except.error CmpError.incompatibleVersion
      else
        match scanMTP (parts.getD 3 []) with
        | none => Except.error CmpError.scanError
        | some mtp =>
          let p : Argon2 :=
            { Memory := mtp.1, Iterations := mtp.2.1, Parallelism := mtp.2.2,
              SaltLength := 0, KeyLength := 0 }
          match rawStdB64 (parts.getD 4 []) with
          | none => Except.error CmpError.base64Error
          | some salt =>
            let p := { p with SaltLength := salt.length }
            match rawStdB64 (parts.getD 5 []) with
            | none => Except.error CmpError.base64Error
            | some digest =>
              let p := { p with KeyLength := digest.length }
              Except.ok (p, salt, digest)
  else Except.error CmpError.invalidHash

/-- `decodePbkdf2Hash`: split on `$` into exactly five fields; split the
scheme field once on `-` (two parts required) and keep the digest name; scan
the `i=,l=` field; decode salt and digest with raw strict base64, overwriting
the scanned `l=` value with the decoded digest length. -/
def decodePbkdf2Hash (s : Str) : Except CmpError (Pbkdf2 × List Nat × List Nat) :=
  let parts := splitDollar s
  if parts.length = 5 then
    match splitFirstDash (parts.getD 1 []) with
    | none => Except.error CmpError.invalidHash
    | some dp =>
      let p : Pbkdf2 :=
        { Algorithm := dp.2, Iterations := 0, SaltLength := 0, KeyLength := 0 }
      match scanIL (parts.getD 2 []) with
      | none => Except.error CmpError.scanError
      | some il =>
        let p := { p with Iterations := il.1, KeyLength := il.2 }
        match rawStdB64 (parts.getD 3 []) with
        | none => Except.error CmpError.base64Error
        | some salt =>
          let p := { p with SaltLength := salt.length }
          match rawStdB64 (parts.getD 4 []) with
          | none => Except.error CmpError.base64Error
          | some digest =>
            let p := { p with KeyLength := digest.length }
            Except.ok (p, salt, digest)
  else Except.error CmpError.invalidHash

/-- `decodeScryptHash`: split on `$` into exactly five fields; scan the
`ln=,r=,p=` field; decode salt and digest with padded strict base64,
recording their lengths into the params record. The scheme field (index 1) is
never inspected. -/
def decodeScryptHash (s : Str) : Except CmpError (Scrypt × List Nat × List Nat) :=
  let parts := splitDollar s
  if parts.length = 5 then
    match scanLnRP (parts.getD 2 []) with
    | none => Except.error CmpError.scanError
    | some nrp =>
      let p : Scrypt :=
        { Cost := nrp.1, Block := nrp.2.1, Parrellization := nrp.2.2,
          SaltLength := 0, KeyLength := 0 }
      match stdB64 (parts.getD 3 []) with
      | none => Except.error CmpError.base64Error
      | some salt =>
        let p := { p with SaltLength := salt.length }
        match stdB64 (parts.getD 4 []) with
        | none => Except.error CmpError.base64Error
        | some digest =>
          let p := { p with KeyLength := digest.length }
          Except.ok (p, salt, digest)
  else Except.error CmpError.invalidHash

/-! ## Comparators -/

/-- Modelled from the spec: `validateBcryptPasswordLength` is defined outside
the reviewed source file; the spec prescribes rejecting passwords longer than
72 bytes before the bcrypt primitive is ever invoked. `some e` is a non-nil
error. -/
def validateBcryptPasswordLength (password : Str) : Option CmpError :=
  if password.length > 72 then some CmpError.passwordTooLong else none

/-- `CompareBcrypt`: reject over-long passwords, then delegate to
`bcrypt.CompareHashAndPassword(hash, password)` and propagate its error. -/
def CompareBcrypt (prims : Primitives) (password h : Str) : Except CmpError Unit :=
  match validateBcryptPasswordLength password with
  | some e => Except.error e
  | none =>
    match prims.bcryptCompare h password with
    | Except.error _ => Except.error CmpError.bcryptLibError
    | Except.ok _ => Except.ok ()

/-- `CompareArgon2id`: decode, recompute with `argon2.IDKey` using the decoded
iterations/memory/parallelism/key length, constant-time compare. -/
def CompareArgon2id (prims : Primitives) (password h : Str) : Except CmpError Unit :=
  match decodeArgon2idHash h with
  | Except.error e => Except.error e
  | Except.ok (p, salt, digest) =>
    if digest = prims.argon2id password salt p.Iterations p.Memory p.Parallelism p.KeyLength then
      Except.ok ()
    else Except.error CmpError.mismatched

/-- `CompareArgon2i`: identical to `CompareArgon2id` except that the recompute
step invokes `argon2.Key` (the argon2i variant). -/
def CompareArgon2i (prims : Primitives) (password h : Str) : Except CmpError Unit :=
  match decodeArgon2idHash h with
  | Except.error e => Except.error e
  | Except.ok (p, salt, digest) =>
    if digest = prims.argon2i password salt p.Iterations p.Memory p.Parallelism p.KeyLength then
      Except.ok ()
    else Except.error CmpError.mismatched

/-- Modelled from the spec: `getPseudorandomFunctionForPbkdf2` is defined
outside the reviewed source file; per the spec it selects the pseudorandom
function from the decoded digest-algorithm name and fails with an
unsupported-algorithm error when the name is not one of the five supported
digests. -/
def getPseudorandomFunctionForPbkdf2 (alg : Str) : Except CmpError PRF :=
  if alg = ("sha1").data then Except.ok PRF.sha1
  else if alg = ("sha224").data then Except.ok PRF.sha224
  else if alg = ("sha256").data then Except.ok PRF.sha256
  else if alg = ("sha384").data then Except.ok PRF.sha384
  else if alg = ("sha512").data then Except.ok PRF.sha512
  else Except.error CmpError.unsupportedAlgorithm

/-- `ComparePbkdf2`: decode, select the pseudorandom function from the decoded
digest name (the selection failure path is modelled from the spec), recompute
with `pbkdf2.Key` using the decoded iteration count and the derived key
length, constant-time compare. -/
def ComparePbkdf2 (prims : Primitives) (password h : Str) : Except CmpError Unit :=
  match decodePbkdf2Hash h with
  | Except.error e => Except.error e
  | Except.ok (p, salt, digest) =>
    match getPseudorandomFunctionForPbkdf2 p.Algorithm with
    | Except.error e => Except.error e
    | Except.ok prf =>
      if digest = prims.pbkdf2Key password salt p.Iterations p.KeyLength prf then Except.ok ()
      else Except.error CmpError.mismatched

/-- `scrypt.Key` of the external scrypt package: its documented parameter
validation (N must exceed one and be a power of two; r, p and N must be small
enough), then the black-box mixing computation. `maxInt` is `2^63 - 1`; a Go
division by zero in the second guard (p = 0) is modelled as the same
parameter error. -/
def scryptKey (mix : Str → List Nat → Nat → Nat → Nat → Nat → List Nat)
    (password : Str) (salt : List Nat) (n r p keyLen : Nat) : Except Unit (List Nat) :=
  let maxInt := 2 ^ 63 - 1
  if n ≤ 1 || (n &&& (n - 1)) != 0 then Except.error ()
  else if r * p ≥ 2 ^ 30 || r > maxInt / 128 / p || r > maxInt / 256 || n > maxInt / 128 / r then
    Except.error ()
  else Except.ok (mix password salt n r p keyLen)

/-- `CompareScrypt`: decode, recompute with `scrypt.Key` using the decoded
cost/block/parallelization/key length — propagating a failure of the
primitive itself as its own error — then constant-time compare. -/
def CompareScrypt (prims : Primitives) (password h : Str) : Except CmpError Unit :=
  match decodeScryptHash h with
  | Except.error e => Except.error e
  | Except.ok (p, salt, digest) =>
    match scryptKey prims.scryptMix password salt p.Cost p.Block p.Parrellization p.KeyLength with
    | Except.error _ => Except.error CmpError.scryptLibError
    | Except.ok otherHash =>
      if digest = otherHash then Except.ok () else Except.error CmpError.mismatched

/-- `CompareSSHA`: delegate to the external `ssha.Validate`; any non-nil
error — the validator does not distinguish malformed encodings from wrong
passwords to its caller here — becomes `ErrMismatchedHashAndPassword`. -/
def CompareSSHA (prims : Primitives) (password h : Str) : Except CmpError Unit :=
  match prims.sshaValidate password h with
  | Except.error _ => Except.error CmpError.mismatched
  | Except.ok _ => Except.ok ()

/-- `CompareSSHA256`: delegate to the external `ssha256.Validate`; any error
becomes `ErrMismatchedHashAndPassword`. -/
def CompareSSHA256 (prims : Primitives) (password h : Str) : Except CmpError Unit :=
  match prims.ssha256Validate password h with
  | Except.error _ => Except.error CmpError.mismatched
  | Except.ok _ => Except.ok ()

/-- `CompareSSHA512`: delegate to the external `ssha512.Validate`; any error
becomes `ErrMismatchedHashAndPassword`. -/
def CompareSSHA512 (prims : Primitives) (password h : Str) : Except CmpError Unit :=
  match prims.ssha512Validate password h with
  | Except.error _ => Except.error CmpError.mismatched
  | Except.ok _ => Except.ok ()

/-- `Compare`: the dispatcher. Classify by testing the eight predicates in
the source's order, invoke the comparator of the first match, and fall
through to `ErrUnknownHashAlgorithm`. -/
def Compare (prims : Primitives) (password h : Str) : Except CmpError Unit :=
  if IsBcryptHash h then CompareBcrypt prims password h
  else if IsArgon2idHash h then CompareArgon2id prims password h
  else if IsArgon2iHash h then CompareArgon2i prims password h
  else if IsPbkdf2Hash h then ComparePbkdf2 prims password h
  else if IsScryptHash h then CompareScrypt prims password h
  else if IsSSHAHash h then CompareSSHA prims password h
  else if IsSSHA256Hash h then CompareSSHA256 prims password h
  else if IsSSHA512Hash h then CompareSSHA512 prims password h
  else Except.error CmpError.unknownAlgorithm


/-! ## Helper lemmas -/


lemma decodeArgon2id_error_kinds (s : Str) (e : CmpError)
    (hd : decodeArgon2idHash s = Except.error e) :
    e = CmpError.invalidHash ∨ e = CmpError.scanError ∨
      e = CmpError.incompatibleVersion ∨ e = CmpError.base64Error := by
  simp only [decodeArgon2idHash] at hd
  repeat' split at hd
  all_goals simp_all

lemma decodePbkdf2_error_kinds (s : Str) (e : CmpError)
    (hd : decodePbkdf2Hash s = Except.error e) :
    e = CmpError.invalidHash ∨ e = CmpError.scanError ∨ e = CmpError.base64Error := by
  simp only [decodePbkdf2Hash] at hd
  repeat' split at hd
  all_goals simp_all

lemma decodeScrypt_error_kinds (s : Str) (e : CmpError)
    (hd : decodeScryptHash s = Except.error e) :
    e = CmpError.invalidHash ∨ e = CmpError.scanError ∨ e = CmpError.base64Error := by
  simp only [decodeScryptHash] at hd
  repeat' split at hd
  all_goals simp_all

lemma getPRF_error_kind (alg : Str) (e : CmpError)
    (hg : getPseudorandomFunctionForPbkdf2 alg = Except.error e) :
    e = CmpError.unsupportedAlgorithm := by
  simp only [getPseudorandomFunctionForPbkdf2] at hg
  repeat' split at hg
  all_goals simp_all

lemma compareBcrypt_ne_unknown (prims : Primitives) (pw h : Str) :
    CompareBcrypt prims pw h ≠ Except.error CmpError.unknownAlgorithm := by
  simp only [CompareBcrypt, validateBcryptPasswordLength]
  by_cases hl : 72 < pw.length
  · simp [hl]
  · simp [hl]
    cases hb : prims.bcryptCompare h pw <;> simp

lemma compareArgon2id_ne_unknown (prims : Primitives) (pw h : Str) :
    CompareArgon2id prims pw h ≠ Except.error CmpError.unknownAlgorithm := by
  simp only [CompareArgon2id]
  split
  next e heq =>
    have hk := decodeArgon2id_error_kinds h e heq
    rcases hk with hk | hk | hk | hk <;> simp [hk]
  next p salt digest heq =>
    split <;> simp

lemma compareArgon2i_ne_unknown (prims : Primitives) (pw h : Str) :
    CompareArgon2i prims pw h ≠ Except.error CmpError.unknownAlgorithm := by
  simp only [CompareArgon2i]
  split
  next e heq =>
    have hk := decodeArgon2id_error_kinds h e heq
    rcases hk with hk | hk | hk | hk <;> simp [hk]
  next p salt digest heq =>
    split <;> simp

lemma comparePbkdf2_ne_unknown (prims : Primitives) (pw h : Str) :
    ComparePbkdf2 prims pw h ≠ Except.error CmpError.unknownAlgorithm := by
  simp only [ComparePbkdf2]
  split
  next e heq =>
    have hk := decodePbkdf2_error_kinds h e heq
    rcases hk with hk | hk | hk <;> simp [hk]
  next p salt digest heq =>
    split
    next e2 hg =>
      have hu := getPRF_error_kind _ _ hg
      simp [hu]
    next prf hg => split <;> simp

lemma compareScrypt_ne_unknown (prims : Primitives) (pw h : Str) :
    CompareScrypt prims pw h ≠ Except.error CmpError.unknownAlgorithm := by
  simp only [CompareScrypt]
  split
  next e heq =>
    have hk := decodeScrypt_error_kinds h e heq
    rcases hk with hk | hk | hk <;> simp [hk]
  next p salt digest heq =>
    repeat' split
    all_goals simp_all

lemma compareSSHA_ne_unknown (prims : Primitives) (pw h : Str) :
    CompareSSHA prims pw h ≠ Except.error CmpError.unknownAlgorithm := by
  simp only [CompareSSHA]
  split <;> simp

lemma compareSSHA256_ne_unknown (prims : Primitives) (pw h : Str) :
    CompareSSHA256 prims pw h ≠ Except.error CmpError.unknownAlgorithm := by
  simp only [CompareSSHA256]
  split <;> simp

lemma compareSSHA512_ne_unknown (prims : Primitives) (pw h : Str) :
    CompareSSHA512 prims pw h ≠ Except.error CmpError.unknownAlgorithm := by
  simp only [CompareSSHA512]
  split <;> simp

lemma compare_unknown_iff (prims : Primitives) (pw h : Str) :
    Compare prims pw h = Except.error CmpError.unknownAlgorithm ↔
      (IsBcryptHash h = false ∧ IsArgon2idHash h = false ∧ IsArgon2iHash h = false ∧
        IsPbkdf2Hash h = false ∧ IsScryptHash h = false ∧ IsSSHAHash h = false ∧
        IsSSHA256Hash h = false ∧ IsSSHA512Hash h = false) := by
  by_cases b1 : IsBcryptHash h
  · simp [Compare, b1, compareBcrypt_ne_unknown prims pw h]
  · by_cases b2 : IsArgon2idHash h
    · simp [Compare, b1, b2, compareArgon2id_ne_unknown prims pw h]
    · by_cases b3 : IsArgon2iHash h
      · simp [Compare, b1, b2, b3, compareArgon2i_ne_unknown prims pw h]
      · by_cases b4 : IsPbkdf2Hash h
        · simp [Compare, b1, b2, b3, b4, comparePbkdf2_ne_unknown prims pw h]
        · by_cases b5 : IsScryptHash h
          · simp [Compare, b1, b2, b3, b4, b5, compareScrypt_ne_unknown prims pw h]
          · by_cases b6 : IsSSHAHash h
            · simp [Compare, b1, b2, b3, b4, b5, b6, compareSSHA_ne_unknown prims pw h]
            · by_cases b7 : IsSSHA256Hash h
              · simp [Compare, b1, b2, b3, b4, b5, b6, b7, compareSSHA256_ne_unknown prims pw h]
              · by_cases b8 : IsSSHA512Hash h
                · simp [Compare, b1, b2, b3, b4, b5, b6, b7, b8,
                    compareSSHA512_ne_unknown prims pw h]
                · simp [Compare, b1, b2, b3, b4, b5, b6, b7, b8]

/-- A field count other than six makes the Argon2 decoder fail with
`ErrInvalidHash`. -/
lemma decodeArgon2id_len (s : Str) (hl : (splitDollar s).length ≠ 6) :
    decodeArgon2idHash s = Except.error CmpError.invalidHash := by
  simp [decodeArgon2idHash, hl]

/-- A field count other than five makes the PBKDF2 decoder fail with
`ErrInvalidHash`. -/
lemma decodePbkdf2_len (s : Str) (hl : (splitDollar s).length ≠ 5) :
    decodePbkdf2Hash s = Except.error CmpError.invalidHash := by
  simp [decodePbkdf2Hash, hl]

/-- A field count other than five makes the Scrypt decoder fail with
`ErrInvalidHash`. -/
lemma decodeScrypt_len (s : Str) (hl : (splitDollar s).length ≠ 5) :
    decodeScryptHash s = Except.error CmpError.invalidHash := by
  simp [decodeScryptHash, hl]

/-- A successful Argon2 decode records the decoded salt and digest lengths in
the params record. -/
lemma decodeArgon2id_ok_lengths (s : Str) (p : Argon2) (salt digest : List Nat)
    (hd : decodeArgon2idHash s = Except.ok (p, salt, digest)) :
    p.SaltLength = salt.length ∧ p.KeyLength = digest.length := by
  simp only [decodeArgon2idHash] at hd
  repeat' split at hd
  all_goals simp_all
  all_goals (obtain ⟨hp, hs, hdg⟩ := hd; subst hp; subst hs; subst hdg; simp)

/-- A successful PBKDF2 decode records the decoded salt and digest lengths in
the params record (overwriting the scanned `l=` value). -/
lemma decodePbkdf2_ok_lengths (s : Str) (p : Pbkdf2) (salt digest : List Nat)
    (hd : decodePbkdf2Hash s = Except.ok (p, salt, digest)) :
    p.SaltLength = salt.length ∧ p.KeyLength = digest.length := by
  simp only [decodePbkdf2Hash] at hd
  repeat' split at hd
  all_goals simp_all
  all_goals (obtain ⟨hp, hs, hdg⟩ := hd; subst hp; subst hs; subst hdg; simp)

/-- A successful Scrypt decode records the decoded salt and digest lengths in
the params record. -/
lemma decodeScrypt_ok_lengths (s : Str) (p : Scrypt) (salt digest : List Nat)
    (hd : decodeScryptHash s = Except.ok (p, salt, digest)) :
    p.SaltLength = salt.length ∧ p.KeyLength = digest.length := by
  simp only [decodeScryptHash] at hd
  repeat' split at hd
  all_goals simp_all
  all_goals (obtain ⟨hp, hs, hdg⟩ := hd; subst hp; subst hs; subst hdg; simp)

/-! ## The claims -/

/-- C1: `Compare` tests the classification predicates in exactly the order
bcrypt, argon2id, argon2i, pbkdf2, scrypt, SSHA, SSHA256, SSHA512, invokes
the comparator of the first predicate that matches, and returns
`ErrUnknownHashAlgorithm` if and only if none of the eight predicates
matches. -/
theorem compare_dispatch_order (prims : Primitives) (pw h : Str) :
    Compare prims pw h =
      (if IsBcryptHash h then CompareBcrypt prims pw h
       else if IsArgon2idHash h then CompareArgon2id prims pw h
       else if IsArgon2iHash h then CompareArgon2i prims pw h
       else if IsPbkdf2Hash h then ComparePbkdf2 prims pw h
       else if IsScryptHash h then CompareScrypt prims pw h
       else if IsSSHAHash h then CompareSSHA prims pw h
       else if IsSSHA256Hash h then CompareSSHA256 prims pw h
       else if IsSSHA512Hash h then CompareSSHA512 prims pw h
       else Except.error CmpError.unknownAlgorithm)
    ∧ (Compare prims pw h = Except.error CmpError.unknownAlgorithm ↔
        (IsBcryptHash h = false ∧ IsArgon2idHash h = false ∧ IsArgon2iHash h = false ∧
          IsPbkdf2Hash h = false ∧ IsScryptHash h = false ∧ IsSSHAHash h = false ∧
          IsSSHA256Hash h = false ∧ IsSSHA512Hash h = false)) :=
  ⟨rfl, compare_unknown_iff prims pw h⟩

/-- C1 witness: on a concrete hash that matches no classifier, `Compare`
returns the unknown-scheme error. -/
theorem compare_dispatch_order_witness :
    Compare trivialPrims (("test").data) (("$unknown$12$x").data) =
      Except.error CmpError.unknownAlgorithm :=
  (compare_dispatch_order trivialPrims (("test").data) (("$unknown$12$x").data)).2.mpr
    (by decide)

/-- C2 counterexample: an SSHA validator failure caused by a malformed
encoding is reported by `CompareSSHA` as `ErrMismatchedHashAndPassword`, so a
malformed SSHA encoding is not distinguishable from a wrong password and is
not reported as a malformed-encoding error. -/
theorem ssha_malformed_reported_as_mismatch :
    CompareSSHA
        { trivialPrims with sshaValidate := fun _ _ => Except.error ValidatorErr.malformed }
        (("pw").data) (("{SSHA}!").data) =
      Except.error CmpError.mismatched
    ∧ CmpError.mismatched ≠ CmpError.invalidHash :=
  ⟨rfl, by decide⟩

/-- C2 (amended): for the four decoder-based comparators (argon2id, argon2i,
pbkdf2, scrypt) a delimiter split with the wrong field count is rejected with
`ErrInvalidHash`, never with `ErrMismatchedHashAndPassword`; the SSHA-family
comparators instead map every failure of their external validator — malformed
encodings included — to `ErrMismatchedHashAndPassword`. -/
theorem malformed_field_count_errors :
    (∀ (prims : Primitives) (pw h : Str), (splitDollar h).length ≠ 6 →
      CompareArgon2id prims pw h = Except.error CmpError.invalidHash)
    ∧ (∀ (prims : Primitives) (pw h : Str), (splitDollar h).length ≠ 6 →
      CompareArgon2i prims pw h = Except.error CmpError.invalidHash)
    ∧ (∀ (prims : Primitives) (pw h : Str), (splitDollar h).length ≠ 5 →
      ComparePbkdf2 prims pw h = Except.error CmpError.invalidHash)
    ∧ (∀ (prims : Primitives) (pw h : Str), (splitDollar h).length ≠ 5 →
      CompareScrypt prims pw h = Except.error CmpError.invalidHash)
    ∧ CmpError.invalidHash ≠ CmpError.mismatched
    ∧ (∀ (prims : Primitives) (pw h : Str) (e : ValidatorErr),
      prims.sshaValidate pw h = Except.error e →
        CompareSSHA prims pw h = Except.error CmpError.mismatched)
    ∧ (∀ (prims : Primitives) (pw h : Str) (e : ValidatorErr),
      prims.ssha256Validate pw h = Except.error e →
        CompareSSHA256 prims pw h = Except.error CmpError.mismatched)
    ∧ (∀ (prims : Primitives) (pw h : Str) (e : ValidatorErr),
      prims.ssha512Validate pw h = Except.error e →
        CompareSSHA512 prims pw h = Except.error CmpError.mismatched) := by
  refine ⟨?_, ?_, ?_, ?_, by decide, ?_, ?_, ?_⟩
  · intro prims pw h hl
    simp [CompareArgon2id, decodeArgon2id_len h hl]
  · intro prims pw h hl
    simp [CompareArgon2i, decodeArgon2id_len h hl]
  · intro prims pw h hl
    simp [ComparePbkdf2, decodePbkdf2_len h hl]
  · intro prims pw h hl
    simp [CompareScrypt, decodeScrypt_len h hl]
  · intro prims pw h e hv
    simp [CompareSSHA, hv]
  · intro prims pw h e hv
    simp [CompareSSHA256, hv]
  · intro prims pw h e hv
    simp [CompareSSHA512, hv]

/-- C2 witness: concrete truncated encodings are rejected with
`ErrInvalidHash` by the decoder-based comparators, while an SSHA validator
failure becomes the mismatch error. -/
theorem malformed_field_count_errors_witness :
    CompareArgon2id trivialPrims (("t").data) (("$argon2id$v=19$m=32").data) =
      Except.error CmpError.invalidHash
    ∧ ComparePbkdf2 trivialPrims (("t").data) (("$pbkdf2-sha256$i=1,l=2").data) =
      Except.error CmpError.invalidHash
    ∧ CompareSSHA
        { trivialPrims with sshaValidate := fun _ _ => Except.error ValidatorErr.mismatch }
        (("t").data) (("{SSHA}x").data) =
      Except.error CmpError.mismatched :=
  ⟨malformed_field_count_errors.1 trivialPrims (("t").data) (("$argon2id$v=19$m=32").data)
      (by decide),
    malformed_field_count_errors.2.2.1 trivialPrims (("t").data)
      (("$pbkdf2-sha256$i=1,l=2").data) (by decide),
    malformed_field_count_errors.2.2.2.2.2.1
      { trivialPrims with sshaValidate := fun _ _ => Except.error ValidatorErr.mismatch }
      (("t").data) (("{SSHA}x").data) ValidatorErr.mismatch rfl⟩

/-- C3: for every password longer than 72 bytes, `CompareBcrypt` returns the
password-too-long error; since this holds for every choice of the bcrypt
primitive, the underlying compare primitive is never reached. -/
theorem compareBcrypt_password_too_long (prims : Primitives) (pw h : Str)
    (hlen : 72 < pw.length) :
    CompareBcrypt prims pw h = Except.error CmpError.passwordTooLong := by
  simp [CompareBcrypt, validateBcryptPasswordLength, hlen]

/-- C3 witness: a 73-byte password is rejected before the bcrypt primitive. -/
theorem compareBcrypt_password_too_long_witness :
    72 < (List.replicate 73 'a').length
    ∧ CompareBcrypt trivialPrims (List.replicate 73 'a') (("hash").data) =
      Except.error CmpError.passwordTooLong :=
  ⟨by decide,
    compareBcrypt_password_too_long trivialPrims (List.replicate 73 'a') (("hash").data)
      (by decide)⟩

/-- C4: the Argon2 decoder rejects any input whose `$`-split is not exactly
six fields with `ErrInvalidHash`; it rejects an input whose version field
scans to a value other than the supported Argon2 version constant (19) with
`ErrIncompatibleVersion`; it never produces the mismatch error; and the three
error kinds are pairwise distinct. -/
theorem decodeArgon2id_malformed_and_version :
    (∀ s : Str, (splitDollar s).length ≠ 6 →
      decodeArgon2idHash s = Except.error CmpError.invalidHash)
    ∧ (∀ (s p0 p1 p2 p3 p4 p5 : Str) (v : Int), splitDollar s = [p0, p1, p2, p3, p4, p5] →
      scanV p2 = some v → v ≠ 19 →
        decodeArgon2idHash s = Except.error CmpError.incompatibleVersion)
    ∧ (∀ s : Str, decodeArgon2idHash s ≠ Except.error CmpError.mismatched)
    ∧ CmpError.invalidHash ≠ CmpError.incompatibleVersion
    ∧ CmpError.invalidHash ≠ CmpError.mismatched
    ∧ CmpError.incompatibleVersion ≠ CmpError.mismatched := by
  refine ⟨decodeArgon2id_len, ?_, ?_, by decide, by decide, by decide⟩
  · intro s p0 p1 p2 p3 p4 p5 v hsplit hscan hv
    simp [decodeArgon2idHash, hsplit, hscan, hv]
  · intro s hc
    have hk := decodeArgon2id_error_kinds s CmpError.mismatched hc
    simp at hk

/-- C4 witness: a one-field input yields `ErrInvalidHash`; a structurally
valid encoding with `v=18` yields `ErrIncompatibleVersion`. -/
theorem decodeArgon2id_malformed_and_version_witness :
    decodeArgon2idHash (("abc").data) = Except.error CmpError.invalidHash
    ∧ decodeArgon2idHash (("$argon2id$v=18$m=32,t=2,p=4$QQ$QQ").data) =
      Except.error CmpError.incompatibleVersion :=
  ⟨decodeArgon2id_malformed_and_version.1 (("abc").data) (by decide),
    decodeArgon2id_malformed_and_version.2.1 (("$argon2id$v=18$m=32,t=2,p=4$QQ$QQ").data)
      [] (("argon2id").data) (("v=18").data) (("m=32,t=2,p=4").data) (("QQ").data)
      (("QQ").data) 18 rfl rfl (by decide)⟩

/-- C5: whenever the PBKDF2 decode succeeds with a digest-algorithm name
outside the five supported ones, `ComparePbkdf2` fails with the
unsupported-digest-algorithm error rather than computing a digest or
reporting a mismatch. -/
theorem comparePbkdf2_unsupported_algorithm (prims : Primitives) (pw h : Str)
    (p : Pbkdf2) (salt digest : List Nat)
    (hdec : decodePbkdf2Hash h = Except.ok (p, salt, digest))
    (h1 : p.Algorithm ≠ ("sha1").data) (h2 : p.Algorithm ≠ ("sha224").data)
    (h3 : p.Algorithm ≠ ("sha256").data) (h4 : p.Algorithm ≠ ("sha384").data)
    (h5 : p.Algorithm ≠ ("sha512").data) :
    ComparePbkdf2 prims pw h = Except.error CmpError.unsupportedAlgorithm := by
  simp only [ComparePbkdf2, hdec]
  simp [getPseudorandomFunctionForPbkdf2, h1, h2, h3, h4, h5]

/-- C5 witness: a decodable `$pbkdf2-sha3$` encoding is rejected with the
unsupported-digest-algorithm error. -/
theorem comparePbkdf2_unsupported_algorithm_witness :
    decodePbkdf2Hash (("$pbkdf2-sha3$i=1,l=32$QQ$QQ").data) =
      Except.ok
        ({ Algorithm := ("sha3").data, Iterations := 1, SaltLength := 1, KeyLength := 1 },
          [65], [65])
    ∧ ComparePbkdf2 trivialPrims (("test").data) (("$pbkdf2-sha3$i=1,l=32$QQ$QQ").data) =
      Except.error CmpError.unsupportedAlgorithm :=
  ⟨rfl,
    comparePbkdf2_unsupported_algorithm trivialPrims (("test").data)
      (("$pbkdf2-sha3$i=1,l=32$QQ$QQ").data)
      { Algorithm := ("sha3").data, Iterations := 1, SaltLength := 1, KeyLength := 1 }
      [65] [65] rfl (by decide) (by decide) (by decide) (by decide) (by decide)⟩

/-- C6 counterexample: on the concrete `ln=16385` scrypt encoding the decode
succeeds, yet `CompareScrypt` does not return the mismatch error — 16385 is
not a power of two, so the scrypt primitive itself rejects its parameters. -/
theorem scrypt_ln16385_not_mismatch :
    (decodeScryptHash (("$scrypt$ln=16385,r=8,p=1$2npRo7P03Mt8keSoMbyD/tKFWyUzjiQf2svUaNDSrhA=$MiCzNcIplSMqSBrm4HckjYqYhaVPPjTARTzwB1cVNYE=").data)).isOk = true
    ∧ CompareScrypt trivialPrims (("test").data)
        (("$scrypt$ln=16385,r=8,p=1$2npRo7P03Mt8keSoMbyD/tKFWyUzjiQf2svUaNDSrhA=$MiCzNcIplSMqSBrm4HckjYqYhaVPPjTARTzwB1cVNYE=").data) ≠
      Except.error CmpError.mismatched := by
  constructor
  · rfl
  · have hx : CompareScrypt trivialPrims (("test").data)
        (("$scrypt$ln=16385,r=8,p=1$2npRo7P03Mt8keSoMbyD/tKFWyUzjiQf2svUaNDSrhA=$MiCzNcIplSMqSBrm4HckjYqYhaVPPjTARTzwB1cVNYE=").data) =
        Except.error CmpError.scryptLibError := rfl
    rw [hx]
    simp

/-- C6 (amended): on the concrete `ln=16385` scrypt encoding, decoding
succeeds and `CompareScrypt` returns the propagated scrypt computation error
— for every instantiation of the scrypt mixing primitive, i.e. without ever
reaching the digest comparison. -/
theorem scrypt_ln16385_computation_error (prims : Primitives) :
    (decodeScryptHash (("$scrypt$ln=16385,r=8,p=1$2npRo7P03Mt8keSoMbyD/tKFWyUzjiQf2svUaNDSrhA=$MiCzNcIplSMqSBrm4HckjYqYhaVPPjTARTzwB1cVNYE=").data)).isOk = true
    ∧ CompareScrypt prims (("test").data)
        (("$scrypt$ln=16385,r=8,p=1$2npRo7P03Mt8keSoMbyD/tKFWyUzjiQf2svUaNDSrhA=$MiCzNcIplSMqSBrm4HckjYqYhaVPPjTARTzwB1cVNYE=").data) =
      Except.error CmpError.scryptLibError :=
  ⟨rfl, rfl⟩

/-- C7: whenever one of the Argon2, PBKDF2 or Scrypt decoders succeeds, the
returned params record has `SaltLength` equal to the decoded salt length and
`KeyLength` equal to the decoded digest length; in particular the wire-format
`l=` field of PBKDF2 is overwritten. -/
theorem decoded_lengths_derived :
    (∀ (s : Str) (p : Argon2) (salt digest : List Nat),
      decodeArgon2idHash s = Except.ok (p, salt, digest) →
        p.SaltLength = salt.length ∧ p.KeyLength = digest.length)
    ∧ (∀ (s : Str) (p : Pbkdf2) (salt digest : List Nat),
      decodePbkdf2Hash s = Except.ok (p, salt, digest) →
        p.SaltLength = salt.length ∧ p.KeyLength = digest.length)
    ∧ (∀ (s : Str) (p : Scrypt) (salt digest : List Nat),
      decodeScryptHash s = Except.ok (p, salt, digest) →
        p.SaltLength = salt.length ∧ p.KeyLength = digest.length) :=
  ⟨decodeArgon2id_ok_lengths, decodePbkdf2_ok_lengths, decodeScrypt_ok_lengths⟩

/-- C7 witness: a concrete PBKDF2 encoding declaring `l=7` decodes to a
params record whose `KeyLength` is the decoded digest length (1), not 7. -/
theorem decoded_lengths_derived_witness :
    decodePbkdf2Hash (("$pbkdf2-sha256$i=2,l=7$QQ$QQ").data) =
      Except.ok
        ({ Algorithm := ("sha256").data, Iterations := 2, SaltLength := 1, KeyLength := 1 },
          [65], [65])
    ∧ ({ Algorithm := ("sha256").data, Iterations := 2, SaltLength := 1, KeyLength := 1 } :
        Pbkdf2).SaltLength = ([65] : List Nat).length
    ∧ ({ Algorithm := ("sha256").data, Iterations := 2, SaltLength := 1, KeyLength := 1 } :
        Pbkdf2).KeyLength = ([65] : List Nat).length :=
  ⟨rfl,
    (decoded_lengths_derived.2.1 (("$pbkdf2-sha256$i=2,l=7$QQ$QQ").data) _ _ _ rfl).1,
    (decoded_lengths_derived.2.1 (("$pbkdf2-sha256$i=2,l=7$QQ$QQ").data) _ _ _ rfl).2⟩

/-- C8: `IsValidHashFormat` is true exactly when one of the eight
classification predicates holds, and false exactly when `Compare` returns
`ErrUnknownHashAlgorithm` for every password (and every instantiation of the
external primitives). -/
theorem isValidHashFormat_iff (h : Str) :
    (IsValidHashFormat h = true ↔
      (IsBcryptHash h = true ∨ IsArgon2idHash h = true ∨ IsArgon2iHash h = true ∨
        IsPbkdf2Hash h = true ∨ IsScryptHash h = true ∨ IsSSHAHash h = true ∨
        IsSSHA256Hash h = true ∨ IsSSHA512Hash h = true))
    ∧ (IsValidHashFormat h = false ↔
      ∀ (prims : Primitives) (pw : Str),
        Compare prims pw h = Except.error CmpError.unknownAlgorithm) := by
  constructor
  · simp [IsValidHashFormat]
    tauto
  · constructor
    · intro hf prims pw
      rw [compare_unknown_iff]
      simp [IsValidHashFormat] at hf
      tauto
    · intro hall
      have hu := (compare_unknown_iff trivialPrims [] h).mp (hall trivialPrims [])
      simp [IsValidHashFormat]
      tauto

/-- C8 witness: a hash matching no classifier is not a valid hash format,
and `Compare` reports the unknown-scheme error on it. -/
theorem isValidHashFormat_iff_witness :
    IsValidHashFormat (("xyz").data) = false
    ∧ Compare trivialPrims (("a").data) (("xyz").data) =
      Except.error CmpError.unknownAlgorithm :=
  ⟨by decide,
    ((isValidHashFormat_iff (("xyz").data)).2.mp (by decide)) trivialPrims (("a").data)⟩

/-- C9 counterexample: `"$2$04$..."` is classified as bcrypt although it
begins with none of the four prefixes `$2a$`, `$2b$`, `$2y$`, `$2z$` — the
scheme letter in the pattern is optional. -/
theorem isBcryptHash_dollar2_counterexample :
    IsBcryptHash (("$2$04$abcdefghijklmnopqrstu").data) = true
    ∧ startsWith (("$2a$").data) (("$2$04$abcdefghijklmnopqrstu").data) = false
    ∧ startsWith (("$2b$").data) (("$2$04$abcdefghijklmnopqrstu").data) = false
    ∧ startsWith (("$2y$").data) (("$2$04$abcdefghijklmnopqrstu").data) = false
    ∧ startsWith (("$2z$").data) (("$2$04$abcdefghijklmnopqrstu").data) = false :=
  ⟨rfl, rfl, rfl, rfl, rfl⟩

/-- C9 (amended): `IsBcryptHash` returns true exactly when the hash begins
with one of the five prefixes `$2$`, `$2a$`, `$2b$`, `$2z$`, `$2y$` — the
scheme letter of the `$2[abzy]?$` pattern is optional. -/
theorem isBcryptHash_optional_letter (h : Str) :
    IsBcryptHash h = true ↔
      (startsWith (("$2$").data) h = true ∨ startsWith (("$2a$").data) h = true ∨
        startsWith (("$2b$").data) h = true ∨ startsWith (("$2z$").data) h = true ∨
        startsWith (("$2y$").data) h = true) := by
  have e1 : ("$2$").data = ['$', '2', '$'] := rfl
  have e2 : ("$2a$").data = ['$', '2', 'a', '$'] := rfl
  have e3 : ("$2b$").data = ['$', '2', 'b', '$'] := rfl
  have e4 : ("$2z$").data = ['$', '2', 'z', '$'] := rfl
  have e5 : ("$2y$").data = ['$', '2', 'y', '$'] := rfl
  rw [e1, e2, e3, e4, e5]
  rcases h with _ | ⟨c1, _ | ⟨c2, _ | ⟨c3, _ | ⟨c4, t⟩⟩⟩⟩
  · simp [IsBcryptHash, startsWith]
  · simp [IsBcryptHash, startsWith]
  · simp [IsBcryptHash, startsWith]
  · by_cases h1 : c1 = '$' <;> by_cases h2 : c2 = '2' <;> by_cases h3 : c3 = '$' <;>
      simp_all [IsBcryptHash, startsWith]
  · by_cases h1 : c1 = '$' <;> by_cases h2 : c2 = '2' <;> by_cases h3 : c3 = '$' <;>
      by_cases h4 : c4 = '$' <;>
      simp_all [IsBcryptHash, startsWith, or_assoc]

/-- C9 witness: `"$2b$10$x"` falls under one of the five prefixes of the
amended pattern. -/
theorem isBcryptHash_optional_letter_witness :
    startsWith (("$2$").data) (("$2b$10$x").data) = true ∨
      startsWith (("$2a$").data) (("$2b$10$x").data) = true ∨
      startsWith (("$2b$").data) (("$2b$10$x").data) = true ∨
      startsWith (("$2z$").data) (("$2b$10$x").data) = true ∨
      startsWith (("$2y$").data) (("$2b$10$x").data) = true :=
  (isBcryptHash_optional_letter (("$2b$10$x").data)).mp (by decide)

/-- C10: the Argon2 decoder never inspects the scheme-identifier field —
two inputs whose `$`-splits differ only in field 1 decode identically — and
`CompareArgon2i` is `CompareArgon2id` with the argon2i key-derivation
primitive substituted for the argon2id one. -/
theorem argon2_decoder_identifier_blind :
    (∀ (h h2 a b b2 c d e f : Str), splitDollar h = [a, b, c, d, e, f] →
      splitDollar h2 = [a, b2, c, d, e, f] →
        decodeArgon2idHash h = decodeArgon2idHash h2)
    ∧ (∀ (prims : Primitives) (pw h : Str),
      CompareArgon2i prims pw h =
        CompareArgon2id { prims with argon2id := prims.argon2i } pw h) := by
  constructor
  · intro h h2 a b b2 c d e f h1 hh2
    simp [decodeArgon2idHash, h1, hh2]
  · intro prims pw h
    unfold CompareArgon2i CompareArgon2id
    cases hd : decodeArgon2idHash h with
    | error e => rfl
    | ok psd =>
      rcases psd with ⟨p, salt, digest⟩
      rfl

/-- C10 witness: replacing the identifier field `argon2id` by `banana` leaves
the decode result unchanged (and still successful), and the two Argon2
comparators agree after swapping the primitive. -/
theorem argon2_decoder_identifier_blind_witness :
    splitDollar (("$argon2id$v=19$m=32,t=2,p=4$QQ$QQ").data) =
      [[], ("argon2id").data, ("v=19").data, ("m=32,t=2,p=4").data, ("QQ").data, ("QQ").data]
    ∧ splitDollar (("$banana$v=19$m=32,t=2,p=4$QQ$QQ").data) =
      [[], ("banana").data, ("v=19").data, ("m=32,t=2,p=4").data, ("QQ").data, ("QQ").data]
    ∧ decodeArgon2idHash (("$argon2id$v=19$m=32,t=2,p=4$QQ$QQ").data) =
      decodeArgon2idHash (("$banana$v=19$m=32,t=2,p=4$QQ$QQ").data)
    ∧ (decodeArgon2idHash (("$banana$v=19$m=32,t=2,p=4$QQ$QQ").data)).isOk = true
    ∧ CompareArgon2i trivialPrims (("t").data) (("$argon2id$v=19$m=32,t=2,p=4$QQ$QQ").data) =
      CompareArgon2id { trivialPrims with argon2id := trivialPrims.argon2i } (("t").data)
        (("$argon2id$v=19$m=32,t=2,p=4$QQ$QQ").data) :=
  ⟨rfl, rfl,
    argon2_decoder_identifier_blind.1 (("$argon2id$v=19$m=32,t=2,p=4$QQ$QQ").data)
      (("$banana$v=19$m=32,t=2,p=4$QQ$QQ").data) [] (("argon2id").data) (("banana").data)
      (("v=19").data) (("m=32,t=2,p=4").data) (("QQ").data) (("QQ").data) rfl rfl,
    rfl,
    argon2_decoder_identifier_blind.2 trivialPrims (("t").data)
      (("$argon2id$v=19$m=32,t=2,p=4$QQ$QQ").data)⟩
